import Mathlib

/-!
Verification of `clangd.py` (pylspclient repository): a shallow embedding of
the orchestration layer that opens every PHP file of a workspace, waits on a
parse barrier, walks the target file's symbol tree issuing reference queries,
and prints one report line per reference.

The embedding follows `src/clangd.py` and the data classes of
`src/pylspclient/lsp_structs.py`.  External collaborators (the LSP server,
the wire transport `lsp_client.references` / `documentSymbol`, the
filesystem) are modelled as oracles passed in as parameters.  Python
exceptions (`KeyError` on a dict lookup, `IndexError` on list indexing,
`ResponseError` from the protocol layer) are modelled with `Except`.
-/

namespace Clangd

/-! ## Data model, from `pylspclient/lsp_structs.py` -/

/-- Model of `Position` (lsp_structs.py): zero-based line and character. -/
structure Position where
  line : Nat
  character : Nat
deriving DecidableEq

/-- Model of `Range` (lsp_structs.py): start and end positions.  The Python field
`end` is a Lean keyword, rendered here as `endPos`. -/
structure Range where
  start : Position
  endPos : Position
deriving DecidableEq

/-- Model of `Location` (lsp_structs.py): a uri and a range inside that resource. -/
structure Location where
  uri : String
  range : Range
deriving DecidableEq

/-- Model of `TextDocumentItem` (lsp_structs.py): an opened document with its full
text snapshot. -/
structure TextDocumentItem where
  uri : String
  languageId : String
  version : Nat
  text : String
deriving DecidableEq

/-- Model of `ReferenceContext` (lsp_structs.py). -/
structure ReferenceContext where
  includeDeclaration : Bool
deriving DecidableEq

/-- Model of `ResponseError` (lsp_structs.py): the protocol-level exception; `print(e)`
in clangd.py renders its message. -/
structure ResponseError where
  code : Int
  message : String
deriving DecidableEq

/-- The symbol tree returned by `documentSymbol`: either a hierarchical
`DocumnetSymbol` (name, range, selectionRange, ordered children) or a flat
`SymbolInformation` (name, location, no children), the two cases of the
`Union[DocumnetSymbol, SymbolInformation]` dispatch in `get_reference`. -/
inductive Symbol where
  | hier (name : String) (range : Range) (selectionRange : Range)
      (children : List Symbol)
  | flat (name : String) (location : Location)

/-- The `Union[List[Location], Location]` argument of `print_reference`. -/
inductive Locations where
  | single (l : Location)
  | many (ls : List Location)
deriving DecidableEq

/-- Python exceptions that the clangd.py code can raise and does not catch. -/
inductive PyError where
  | keyError (key : String)
  | indexError (index : Nat)
deriving DecidableEq

/-! ## Python primitives used by clangd.py -/

/-- Python `dict` lookup `d[k]` modelled on an insertion-ordered association
list: `none` models a raised `KeyError`. -/
def dget {α : Type} (d : List (String × α)) (k : String) : Option α :=
  (d.find? (fun p => p.1 == k)).map (fun p => p.2)

/-- Python `dict` assignment `d[k] = v`: replaces in place when the key is
present, otherwise appends (insertion order preserved). -/
def dinsert {α : Type} (d : List (String × α)) (k : String) (v : α) :
    List (String × α) :=
  if d.any (fun p => p.1 == k) then
    d.map (fun p => if p.1 == k then (k, v) else p)
  else
    d ++ [(k, v)]

/-- Python `str.splitlines()` for texts whose only line boundary is `"\n"`:
lines are the maximal `'\n'`-free chunks, the empty string yields no lines,
and a trailing newline yields no trailing empty line (so
`"".splitlines() = []` and `"a\n".splitlines() = ["a"]`). -/
def splitlines (s : String) : List String :=
  go [] s.data
where
  go (acc : List Char) : List Char → List String
    | [] => if acc.isEmpty then [] else [String.mk acc.reverse]
    | c :: rest =>
      if c = '\n' then String.mk acc.reverse :: go [] rest
      else go (c :: acc) rest

/-- Whether an `Except` models a normal (non-raising) Python return. -/
def exceptIsOk {ε α : Type} : Except ε α → Bool
  | .ok _ => true
  | .error _ => false

/-- Whether `pat` occurs as a contiguous substring of `s` (used to state
that a diagnostic line names, or fails to name, a file). -/
def strContainsSub (s pat : String) : Bool :=
  go s.data
where
  go : List Char → Bool
    | [] => pat.data.isPrefixOf []
    | c :: cs => pat.data.isPrefixOf (c :: cs) || go cs

/-- Python set membership semantics on a `List String` model of a set:
`a == b` on Python sets is extensional equality. -/
def setEq (a b : List String) : Bool :=
  a.all (fun x => b.contains x) && b.all (fun x => a.contains x)

/-- Python `set.add`: inserts the element if absent. -/
def setAdd (s : List String) (x : String) : List String :=
  if s.contains x then s else s ++ [x]

/-- Superset test `a ⊇ b` on the list model of sets (used to state the spec's superset
claim about the parse barrier). -/
def isSupersetOf (a b : List String) : Bool :=
  b.all (fun x => a.contains x)

/-! ## print_reference (clangd.py lines 41-63) -/

/-- The slice `location.uri[len("file://"):]` in `print_reference`: drop the first
seven characters unconditionally. -/
def stripScheme (uri : String) : String :=
  uri.drop 7

/-- The short report line `print_reference` emits when the location list is
empty: `f'"\x7buri\x7d", \x7bline\x7d, \x7bcharacter\x7d, "\x7bname\x7d"'`. -/
def formatNoRef (uri : String) (line character : Nat) (name : String) :
    String :=
  "\"" ++ uri ++ "\", " ++ toString line ++ ", " ++ toString character ++
    ", \"" ++ name ++ "\""

/-- The full report line emitted per resolved location. -/
def formatFull (uri : String) (line character : Nat) (name : String)
    (locUri : String) (locLine locCharacter : Nat) (lineStr : String) :
    String :=
  formatNoRef uri line character name ++ ", \"" ++ locUri ++ "\", " ++
    toString locLine ++ ", " ++ toString locCharacter ++ ", `" ++
    lineStr ++ "`"

/-- The `for location in _locations` loop body of `print_reference`:
`documents[location.uri[len("file://"):]]` (KeyError when absent), then
`document.text.splitlines()[loc_line]` (IndexError when out of range),
then one printed line per location. -/
def printLocations (uri : String) (line character : Nat) (name : String)
    (documents : List (String × TextDocumentItem)) :
    List Location → Except PyError (List String)
  | [] => .ok []
  | location :: rest =>
    match dget documents (stripScheme location.uri) with
    | none => .error (.keyError (stripScheme location.uri))
    | some document =>
      let locLine := location.range.start.line
      let locCharacter := location.range.start.character
      match (splitlines document.text).get? locLine with
      | none => .error (.indexError locLine)
      | some lineStr =>
        match printLocations uri line character name documents rest with
        | .error e => .error e
        | .ok out =>
          .ok (formatFull uri line character name location.uri locLine
              locCharacter lineStr :: out)

/-- Embedding of `print_reference` (clangd.py lines 41-63): normalises the
`Union[List[Location], Location]` argument to a list, prints a four-field
marker line when that list is empty, then prints one full line per
location.  The returned list is the sequence of printed stdout lines;
`.error` models an uncaught Python exception. -/
def print_reference (uri : String) (line character : Nat) (name : String)
    (locations : Locations)
    (documents : List (String × TextDocumentItem)) :
    Except PyError (List String) :=
  let locs : List Location :=
    match locations with
    | .single l => [l]
    | .many ls => ls
  let header : List String :=
    if locs.isEmpty then [formatNoRef uri line character name] else []
  match printLocations uri line character name documents locs with
  | .error e => .error e
  | .ok out => .ok (header ++ out)

/-! ## get_reference (clangd.py lines 66-93) -/

/-- A `textDocument/references` request as issued by `get_reference`:
document identifier, position, and the `ReferenceContext`. -/
structure Query where
  uri : String
  position : Position
  context : ReferenceContext
deriving DecidableEq

/-- The literal `3` added to a flat symbol's reported start line in the
`SymbolInformation` branch of `get_reference` (`symbol.location.range.start.
line + 3`): the flat-symbol line-offset compensation. -/
def FLAT_SYMBOL_LINE_OFFSET : Nat := 3

/-- Embedding of `get_reference` (clangd.py lines 66-93).  The `lsp_client.references`
call is the oracle `refs : Query → Locations`.  Returns the queries issued
in order together with the printed report lines; `.error` models an
uncaught Python exception from `print_reference`, which aborts the
traversal.  The hierarchical branch queries at `selectionRange.start` and
recurses into children in declared order; the flat branch queries at
`location.range.start` with the line offset and does not recurse. -/
def get_reference (refs : Query → Locations) (uri : String)
    (documents : List (String × TextDocumentItem)) :
    Symbol → Except PyError (List Query × List String)
  | .hier name _range selectionRange children =>
    let line := selectionRange.start.line
    let character := selectionRange.start.character
    let q : Query := ⟨uri, ⟨line, character⟩, ⟨true⟩⟩
    let locations := refs q
    match print_reference uri line character name locations documents with
    | .error e => .error e
    | .ok out =>
      match children_loop children with
      | .error e => .error e
      | .ok (qs, outs) => .ok (q :: qs, out ++ outs)
  | .flat name location =>
    let line := location.range.start.line + FLAT_SYMBOL_LINE_OFFSET
    let character := location.range.start.character
    let q : Query := ⟨uri, ⟨line, character⟩, ⟨true⟩⟩
    let locations := refs q
    match print_reference uri line character name locations documents with
    | .error e => .error e
    | .ok out => .ok ([q], out)
where
  /-- The `for child in symbol.children: get_reference(...)` loop. -/
  children_loop : List Symbol → Except PyError (List Query × List String)
    | [] => .ok ([], [])
    | c :: cs =>
      match get_reference refs uri documents c with
      | .error e => .error e
      | .ok (qs, out) =>
        match children_loop cs with
        | .error e => .error e
        | .ok (qs2, out2) => .ok (qs ++ qs2, out ++ out2)

/-! ## Spec-side vocabulary for the walker claims: node count, depth-first
pre-order, and the anchor position each claim assigns to a node. -/

/-- Total number of nodes of a symbol tree. -/
def Symbol.size : Symbol → Nat
  | .flat _ _ => 1
  | .hier _ _ _ cs => 1 + sizeList cs
where
  sizeList : List Symbol → Nat
    | [] => 0
    | c :: cs => c.size + sizeList cs

/-- Whether every node of the tree is hierarchical (`DocumnetSymbol`). -/
def Symbol.allHier : Symbol → Bool
  | .flat _ _ => false
  | .hier _ _ _ cs => allHierList cs
where
  allHierList : List Symbol → Bool
    | [] => true
    | c :: cs => c.allHier && allHierList cs

/-- Depth-first pre-order listing of a tree's nodes: each parent strictly
before its descendants, children in declared order. -/
def Symbol.preorder : Symbol → List Symbol
  | .flat name location => [.flat name location]
  | .hier name range selectionRange cs =>
    .hier name range selectionRange cs :: preorderList cs
where
  preorderList : List Symbol → List Symbol
    | [] => []
    | c :: cs => c.preorder ++ preorderList cs

/-- The reference query the spec assigns to a node: a hierarchical node is
anchored at `selectionRange.start`, a flat node at its reported location
start with the line-offset compensation added to the line, both with
`includeDeclaration = true`. -/
def specAnchor (uri : String) : Symbol → Query
  | .hier _ _ selectionRange _ =>
    ⟨uri, ⟨selectionRange.start.line, selectionRange.start.character⟩,
      ⟨true⟩⟩
  | .flat _ location =>
    ⟨uri, ⟨location.range.start.line + FLAT_SYMBOL_LINE_OFFSET,
      location.range.start.character⟩, ⟨true⟩⟩

/-! ## open_all_source_files (clangd.py lines 96-109) -/

/-- Embedding of `open_all_source_files` (clangd.py lines 96-109).  The filesystem walk
`root_dir.glob("**/*.php")` together with `open(file_path).read()` is the
oracle `files : List (String × String)` pairing each discovered file's
absolute path with its text.  For each file the code builds a
`TextDocumentItem` with uri `"file://" + path`, language `"php"`, version 1
and the file's text, sends a `didOpen` notification (an external side
effect, not part of the returned value) and stores the item under the
absolute path. -/
def open_all_source_files (files : List (String × String)) :
    List (String × TextDocumentItem) :=
  files.foldl
    (fun opened_files ft =>
      let file_path := ft.1
      let uri := "file://" ++ file_path
      let documentItem : TextDocumentItem :=
        ⟨uri, "php", 1, ft.2⟩
      dinsert opened_files file_path documentItem)
    []

/-! ## Parse barrier and the post-ingestion phase of start_communication
(clangd.py lines 280-301) -/

/-- Constant `FILE_PARSE_TIMEOUT_SEC = 30` (clangd.py line 25). -/
def FILE_PARSE_TIMEOUT_SEC : Nat := 30

/-- Result of the parse barrier loop. -/
inductive BarrierResult where
  | Completed
  | TimedOut
deriving DecidableEq

/-- One pass of the barrier loop `for _ in range(timeout): if _DONE_FILES ==
files: break; sleep(1)` starting at poll index `i` with `fuel` iterations
left.  `snapshots i` is the value of the process-wide `_DONE_FILES` set at
the `i`-th poll (it is mutated asynchronously by the notification
handler). -/
def awaitAllFrom (snapshots : Nat → List String) (files : List String) :
    Nat → Nat → BarrierResult
  | _, 0 => .TimedOut
  | i, fuel + 1 =>
    if setEq (snapshots i) files then .Completed
    else awaitAllFrom snapshots files (i + 1) fuel

/-- The parse barrier of `start_communication` (clangd.py lines 282-288):
poll up to `timeout` times whether `_DONE_FILES == files` (Python set
equality); the `for`/`else` falls through to the timeout branch when no
poll succeeded. -/
def awaitAll (snapshots : Nat → List String) (files : List String)
    (timeout : Nat) : BarrierResult :=
  awaitAllFrom snapshots files 0 timeout

/-- The target uri set `set([document.uri for _, document in documents.items()])`
(clangd.py line 281). -/
def files_of (documents : List (String × TextDocumentItem)) : List String :=
  documents.map (fun p => p.2.uri)

/-- Observable output of the post-ingestion phase: reference queries issued,
report lines printed to stdout, diagnostics printed to stderr. -/
structure RunOutput where
  queries : List Query
  records : List String
  diagnostics : List String
deriving DecidableEq

/-- The walk loop `for symbol in symbols: get_reference(...)` (clangd.py
lines 296-297). -/
def walk_symbols (refs : Query → Locations) (uri : String)
    (documents : List (String × TextDocumentItem)) :
    List Symbol → Except PyError (List Query × List String)
  | [] => .ok ([], [])
  | s :: rest =>
    match get_reference refs uri documents s with
    | .error e => .error e
    | .ok (qs, out) =>
      match walk_symbols refs uri documents rest with
      | .error e => .error e
      | .ok (qs2, out2) => .ok (qs ++ qs2, out ++ out2)

/-- The phase of `start_communication` after `open_all_source_files`
(clangd.py lines 280-301): build the target uri set, run the parse barrier
(timeout prints `"file parse timeout"` and returns), look up
`documents[FILE_PATH]` (KeyError if absent), request the symbol tree
(`documentSymbol` oracle; a `ResponseError` is caught, printing the error
and `"Failed to document symbols"`), then walk every top-level symbol.
`.error` models an uncaught Python exception. -/
def run_after_open (snapshots : Nat → List String)
    (documents : List (String × TextDocumentItem)) (file_path : String)
    (documentSymbol : TextDocumentItem → Except ResponseError (List Symbol))
    (refs : Query → Locations) : Except PyError RunOutput :=
  let files := files_of documents
  match awaitAll snapshots files FILE_PARSE_TIMEOUT_SEC with
  | .TimedOut => .ok ⟨[], [], ["file parse timeout"]⟩
  | .Completed =>
    match dget documents file_path with
    | none => .error (.keyError file_path)
    | some documentItem =>
      match documentSymbol documentItem with
      | .error e =>
        .ok ⟨[], [], [e.message, "Failed to document symbols"]⟩
      | .ok symbols =>
        match walk_symbols refs documentItem.uri documents symbols with
        | .error e => .error e
        | .ok (qs, out) =>
          .ok ⟨qs, out,
            ["Get references for all symbols in file: " ++
              documentItem.uri ++ "."]⟩

/-! ## publishDiagnostics (clangd.py lines 304-307) -/

/-- Embedding of `publishDiagnostics` (clangd.py lines 304-307): the
`textDocument/publishDiagnostics` notification handler.  Given the current
`_DONE_FILES` set and the notified uri it adds the uri to the set and
prints a diagnostic; the returned pair is (new set, stderr line). -/
def publishDiagnostics (done_files : List String) (uri : String) :
    List String × String :=
  (setAdd done_files uri, "Parse end: " ++ uri)

/-! ## Theorems -/

/-- C6: for every visited symbol whose reference query returns an empty
result, `print_reference` emits exactly one record and it bears the
"no references" marker (the short four-field line); an empty result never
yields zero records. -/
theorem C6_empty_result_yields_one_marker_record (uri : String)
    (line character : Nat) (name : String)
    (documents : List (String × TextDocumentItem)) :
    print_reference uri line character name (.many []) documents =
      .ok [formatNoRef uri line character name] ∧
    [formatNoRef uri line character name].length = 1 :=
  ⟨rfl, rfl⟩

/-- C2 counterexample: a reference whose target uri (scheme stripped) is
absent from the document cache makes `print_reference` raise `KeyError`
(the unguarded `documents[...]` lookup) instead of emitting an
"unresolved source line" placeholder and returning normally. -/
theorem C2_counterexample :
    dget ([] : List (String × TextDocumentItem))
        (stripScheme "file:///missing.php") = none ∧
    print_reference "file:///t.php" 0 0 "foo"
        (.single ⟨"file:///missing.php", ⟨⟨0, 0⟩, ⟨0, 0⟩⟩⟩) [] =
      .error (.keyError "/missing.php") ∧
    exceptIsOk (print_reference "file:///t.php" 0 0 "foo"
        (.single ⟨"file:///missing.php", ⟨⟨0, 0⟩, ⟨0, 0⟩⟩⟩) []) = false :=
  ⟨rfl, rfl, rfl⟩

/-- C2 (amended): for every reference record whose target location uri,
after stripping the scheme prefix, is absent from the ingested document
cache, `print_reference` raises `KeyError` — the run fails instead of
emitting a placeholder line. -/
theorem C2_absent_uri_raises_keyError (uri : String) (line character : Nat)
    (name : String) (documents : List (String × TextDocumentItem))
    (location : Location)
    (habs : dget documents (stripScheme location.uri) = none) :
    print_reference uri line character name (.single location) documents =
      .error (.keyError (stripScheme location.uri)) := by
  simp [print_reference, printLocations, habs]

/-- Witness for C2's amended theorem at a concrete absent uri. -/
theorem C2_absent_uri_witness :
    dget ([] : List (String × TextDocumentItem))
        (stripScheme "file:///w.php") = none ∧
    print_reference "u" 1 2 "n"
        (.single ⟨"file:///w.php", ⟨⟨0, 0⟩, ⟨0, 0⟩⟩⟩) [] =
      .error (.keyError (stripScheme "file:///w.php")) :=
  ⟨rfl, C2_absent_uri_raises_keyError "u" 1 2 "n" [] _ rfl⟩

/-- C10: the line lookup `document.text.splitlines()[loc_line]` in
`print_reference` is unguarded: whenever the target location's start line
is at or past the number of lines of the cached text, the call raises
`IndexError` instead of rendering a degraded record. -/
theorem C10_line_index_unguarded (uri : String) (line character : Nat)
    (name : String) (documents : List (String × TextDocumentItem))
    (location : Location) (document : TextDocumentItem)
    (hdoc : dget documents (stripScheme location.uri) = some document)
    (hline : (splitlines document.text).length ≤ location.range.start.line) :
    print_reference uri line character name (.single location) documents =
      .error (.indexError location.range.start.line) := by
  simp [print_reference, printLocations, hdoc, List.getElem?_eq_none hline]

/-- Witness for C10 at a concrete violating input: a reference at line 0
into a cached empty document (zero lines). -/
theorem C10_witness :
    dget [("/e.php", (⟨"file:///e.php", "php", 1, ""⟩ : TextDocumentItem))]
        (stripScheme "file:///e.php") =
      some ⟨"file:///e.php", "php", 1, ""⟩ ∧
    (splitlines "").length ≤ 0 ∧
    print_reference "u" 3 4 "n"
        (.single ⟨"file:///e.php", ⟨⟨0, 0⟩, ⟨0, 0⟩⟩⟩)
        [("/e.php", ⟨"file:///e.php", "php", 1, ""⟩)] =
      .error (.indexError 0) :=
  ⟨rfl, by decide,
    C10_line_index_unguarded "u" 3 4 "n" _ _ _ rfl (by decide)⟩

/-- C9: the `publishDiagnostics` notification handler only inserts the
notified uri into the parsed-set: the set after handling is a superset of
the set before, and contains nothing beyond the old set and the notified
uri (so the parsed-set grows monotonically across deliveries). -/
theorem C9_handler_monotone (done_files : List String) (uri : String) :
    done_files ⊆ (publishDiagnostics done_files uri).1 ∧
    uri ∈ (publishDiagnostics done_files uri).1 ∧
    (publishDiagnostics done_files uri).1 ⊆ uri :: done_files := by
  unfold publishDiagnostics setAdd
  by_cases h : done_files.contains uri
  · have hm : uri ∈ done_files := by simpa using h
    simp only [h, if_pos]
    exact ⟨fun a ha => ha, hm, fun a ha => List.mem_cons_of_mem _ ha⟩
  · simp only [h]
    refine ⟨List.subset_append_left _ _, ?_, ?_⟩
    · simp
    · intro a ha
      rcases List.mem_append.mp ha with h1 | h1
      · exact List.mem_cons_of_mem _ h1
      · simp only [List.mem_singleton] at h1
        simp [h1]

/-- Witness for C9 at a concrete set and uri. -/
theorem C9_witness :
    ["file:///a.php"] ⊆
      (publishDiagnostics ["file:///a.php"] "file:///b.php").1 ∧
    "file:///b.php" ∈
      (publishDiagnostics ["file:///a.php"] "file:///b.php").1 ∧
    (publishDiagnostics ["file:///a.php"] "file:///b.php").1 ⊆
      "file:///b.php" :: ["file:///a.php"] :=
  C9_handler_monotone ["file:///a.php"] "file:///b.php"

/-- The barrier loop starting at poll `i` with `fuel` polls left completes
iff one of those polls sees a parsed-set equal (as a set) to the target. -/
theorem awaitAllFrom_completed_iff (snapshots : Nat → List String)
    (files : List String) :
    ∀ (fuel i : Nat), awaitAllFrom snapshots files i fuel = .Completed ↔
      ∃ j, j < fuel ∧ setEq (snapshots (i + j)) files = true := by
  intro fuel
  induction fuel with
  | zero =>
    intro i
    constructor
    · intro h
      simp [awaitAllFrom] at h
    · rintro ⟨j, hj, -⟩
      omega
  | succ n ih =>
    intro i
    simp only [awaitAllFrom]
    by_cases h : setEq (snapshots i) files = true
    · rw [if_pos h]
      simp only [true_iff]
      exact ⟨0, by omega, by simpa using h⟩
    · rw [if_neg h, ih (i + 1)]
      constructor
      · rintro ⟨j, hj, hs⟩
        have he : i + 1 + j = i + (j + 1) := by omega
        rw [he] at hs
        exact ⟨j + 1, by omega, hs⟩
      · rintro ⟨j, hj, hs⟩
        rcases j with - | j
        · rw [Nat.add_zero] at hs
          exact absurd hs h
        · have he : i + (j + 1) = i + 1 + j := by omega
          rw [he] at hs
          exact ⟨j, by omega, hs⟩

/-- C1 counterexample: the target set is a single uri, the parsed-set at
every poll (in particular at a poll strictly before the timeout) is a
strict superset of it, yet the barrier times out: the loop tests
`_DONE_FILES == files` (set equality), so a parsed-set with an extra uri
never releases it. -/
theorem C1_counterexample :
    isSupersetOf ((fun _ => ["file:///a.php", "file:///b.php"]) 0)
        ["file:///a.php"] = true ∧
    (0 : Nat) < FILE_PARSE_TIMEOUT_SEC ∧
    awaitAll (fun _ => ["file:///a.php", "file:///b.php"]) ["file:///a.php"]
        FILE_PARSE_TIMEOUT_SEC = .TimedOut :=
  ⟨rfl, by decide, rfl⟩

/-- C1 (amended): the parse barrier returns Completed iff at some poll
strictly before the timeout the parsed-set is equal, as a set, to the
target uri set; a parsed-set that merely contains the target set (with
extra uris) does not release the barrier, which then reports timeout. -/
theorem C1_barrier_completed_iff_setEq (snapshots : Nat → List String)
    (files : List String) (timeout : Nat) :
    awaitAll snapshots files timeout = .Completed ↔
      ∃ i, i < timeout ∧ setEq (snapshots i) files = true := by
  simpa [awaitAll] using awaitAllFrom_completed_iff snapshots files timeout 0

/-- C3 counterexample: a run whose single opened file never signals parsed
does time out with zero walk-phase records, but its only diagnostic is the
fixed string `"file parse timeout"`, which does not name the unconfirmed
file (neither its uri nor its base name occurs in it). -/
theorem C3_counterexample :
    awaitAll (fun _ => [])
        (files_of [("/r/a.php", ⟨"file:///r/a.php", "php", 1, "x"⟩)])
        FILE_PARSE_TIMEOUT_SEC = .TimedOut ∧
    run_after_open (fun _ => [])
        [("/r/a.php", ⟨"file:///r/a.php", "php", 1, "x"⟩)]
        "/r/a.php" (fun _ => .ok []) (fun _ => .many []) =
      .ok ⟨[], [], ["file parse timeout"]⟩ ∧
    strContainsSub "file parse timeout" "file:///r/a.php" = false ∧
    strContainsSub "file parse timeout" "a.php" = false :=
  ⟨rfl, rfl, by decide, by decide⟩

/-- C3 (amended): whenever the parse barrier times out, the run emits zero
walk-phase records — no reference query is issued and no report line is
printed — and its only diagnostic is the fixed string
`"file parse timeout"`, which does not name the unconfirmed files. -/
theorem C3_timeout_aborts_walk (snapshots : Nat → List String)
    (documents : List (String × TextDocumentItem)) (file_path : String)
    (ds : TextDocumentItem → Except ResponseError (List Symbol))
    (refs : Query → Locations)
    (htimeout : awaitAll snapshots (files_of documents)
        FILE_PARSE_TIMEOUT_SEC = .TimedOut) :
    run_after_open snapshots documents file_path ds refs =
      .ok ⟨[], [], ["file parse timeout"]⟩ := by
  simp [run_after_open, htimeout]

/-- Witness for C3's amended theorem at a concrete timed-out run. -/
theorem C3_timeout_witness :
    awaitAll (fun _ => [])
        (files_of [("/r/b.php", ⟨"file:///r/b.php", "php", 1, "y"⟩)])
        FILE_PARSE_TIMEOUT_SEC = .TimedOut ∧
    run_after_open (fun _ => [])
        [("/r/b.php", ⟨"file:///r/b.php", "php", 1, "y"⟩)]
        "/r/b.php" (fun _ => .ok []) (fun _ => .many []) =
      .ok ⟨[], [], ["file parse timeout"]⟩ :=
  ⟨rfl, C3_timeout_aborts_walk _ _ _ _ _ rfl⟩

/-- C8: when the barrier completed and the target document is in the cache
but the `documentSymbol` request fails with a `ResponseError`
(UnsupportedRequest), the run catches it, logs the error message and
`"Failed to document symbols"`, and ends the walk phase normally with zero
queries and zero records — the error does not propagate. -/
theorem C8_unsupported_documentSymbol_recovers (snapshots : Nat → List String)
    (documents : List (String × TextDocumentItem)) (file_path : String)
    (ds : TextDocumentItem → Except ResponseError (List Symbol))
    (refs : Query → Locations) (documentItem : TextDocumentItem)
    (e : ResponseError)
    (hbar : awaitAll snapshots (files_of documents)
        FILE_PARSE_TIMEOUT_SEC = .Completed)
    (hdoc : dget documents file_path = some documentItem)
    (hsym : ds documentItem = .error e) :
    run_after_open snapshots documents file_path ds refs =
      .ok ⟨[], [], [e.message, "Failed to document symbols"]⟩ := by
  simp [run_after_open, hbar, hdoc, hsym]

/-- Witness for C8 at a concrete run whose server rejects documentSymbol. -/
theorem C8_witness :
    awaitAll (fun _ => ["file:///r/c.php"])
        (files_of [("/r/c.php", ⟨"file:///r/c.php", "php", 1, "z"⟩)])
        FILE_PARSE_TIMEOUT_SEC = .Completed ∧
    dget [("/r/c.php", (⟨"file:///r/c.php", "php", 1, "z"⟩ : TextDocumentItem))]
        "/r/c.php" = some ⟨"file:///r/c.php", "php", 1, "z"⟩ ∧
    run_after_open (fun _ => ["file:///r/c.php"])
        [("/r/c.php", ⟨"file:///r/c.php", "php", 1, "z"⟩)]
        "/r/c.php"
        (fun _ => .error ⟨(-32601 : Int), "documentSymbol unsupported"⟩)
        (fun _ => .many []) =
      .ok ⟨[], [], ["documentSymbol unsupported", "Failed to document symbols"]⟩ :=
  ⟨rfl, rfl,
    C8_unsupported_documentSymbol_recovers _ _ _ _ _
      ⟨"file:///r/c.php", "php", 1, "z"⟩
      ⟨(-32601 : Int), "documentSymbol unsupported"⟩ rfl rfl rfl⟩

/-- The cache entry `open_all_source_files` builds for one discovered file:
keyed by the absolute path, holding a `TextDocumentItem` whose uri is
`"file://" + path`, language `"php"`, version 1 and the file's text. -/
def openedEntry (ft : String × String) : String × TextDocumentItem :=
  (ft.1, ⟨"file://" ++ ft.1, "php", 1, ft.2⟩)

/-- Generalised accumulator lemma for the ingestion fold: as long as no
pending file's path is already a key of the accumulator and the pending
paths are pairwise distinct, the fold appends exactly one entry per
file. -/
theorem open_all_aux :
    ∀ (files : List (String × String)) (acc : List (String × TextDocumentItem)),
      (∀ q ∈ acc, q.1 ∉ files.map Prod.fst) →
      (files.map Prod.fst).Nodup →
      List.foldl
        (fun opened_files ft =>
          dinsert opened_files ft.1 ⟨"file://" ++ ft.1, "php", 1, ft.2⟩)
        acc files = acc ++ files.map openedEntry
  | [], acc, _, _ => by simp
  | ft :: rest, acc, hdisj, hnd => by
    simp only [List.foldl]
    have hnotin : acc.any (fun p => p.1 == ft.1) = false := by
      cases hA : acc.any (fun p => p.1 == ft.1) with
      | false => rfl
      | true =>
        obtain ⟨q, hq, hqe⟩ := List.any_eq_true.mp hA
        rw [beq_iff_eq] at hqe
        exact absurd (by simp [hqe]) (hdisj q hq)
    have hstep :
        dinsert acc ft.1 ⟨"file://" ++ ft.1, "php", 1, ft.2⟩ =
          acc ++ [openedEntry ft] := by
      simp [dinsert, hnotin, openedEntry]
    rw [hstep]
    have hnd2 : ft.1 ∉ rest.map Prod.fst ∧ (rest.map Prod.fst).Nodup := by
      rw [List.map_cons, List.nodup_cons] at hnd
      exact hnd
    have hdisj' : ∀ q ∈ acc ++ [openedEntry ft], q.1 ∉ rest.map Prod.fst := by
      intro q hq
      rcases List.mem_append.mp hq with h1 | h1
      · intro hmem
        exact hdisj q h1 (by simp [hmem])
      · simp only [List.mem_singleton] at h1
        subst h1
        simpa [openedEntry] using hnd2.1
    rw [open_all_aux rest (acc ++ [openedEntry ft]) hdisj' hnd2.2]
    simp

/-- C7: for every discovered file list with pairwise-distinct absolute
paths (as `glob` yields), `open_all_source_files` returns a mapping with
exactly one entry per file, keyed by the file's absolute path, whose
document holds the file's full text at version 1 under the uri
`"file://" + path`. -/
theorem C7_open_all_source_files_mapping (files : List (String × String))
    (hnd : (files.map Prod.fst).Nodup) :
    open_all_source_files files = files.map openedEntry := by
  have h := open_all_aux files [] (by simp) hnd
  simpa [open_all_source_files] using h

/-- Witness for C7 on a concrete two-file workspace. -/
theorem C7_witness :
    (([("/r/a.php", "ta"), ("/r/b.php", "tb")].map Prod.fst).Nodup) ∧
    open_all_source_files [("/r/a.php", "ta"), ("/r/b.php", "tb")] =
      [("/r/a.php", "ta"), ("/r/b.php", "tb")].map openedEntry :=
  ⟨by decide, C7_open_all_source_files_mapping _ (by decide)⟩

/-- When the walker returns normally, its query trace is exactly the
depth-first pre-order listing of the tree's nodes, each mapped to its
anchor query. -/
theorem get_reference_trace (refs : Query → Locations) (u : String)
    (documents : List (String × TextDocumentItem)) :
    (s : Symbol) → ∀ qs out,
      get_reference refs u documents s = Except.ok (qs, out) →
      qs = (Symbol.preorder s).map (specAnchor u)
  | .flat name location => by
    intro qs out h
    simp only [get_reference] at h
    split at h
    · exact absurd h (by simp)
    · simp only [Except.ok.injEq, Prod.mk.injEq] at h
      simp [Symbol.preorder, specAnchor, ← h.1]
  | .hier name range selectionRange cs => by
    intro qs out h
    simp only [get_reference] at h
    split at h
    · exact absurd h (by simp)
    · split at h
      · exact absurd h (by simp)
      · rename_i qs1 outs1 hcl
        simp only [Except.ok.injEq, Prod.mk.injEq] at h
        have hcs := trace_list cs qs1 outs1 hcl
        simp [Symbol.preorder, specAnchor, ← h.1, hcs]
where
  trace_list : (cs : List Symbol) → ∀ qs out,
      get_reference.children_loop refs u documents cs = Except.ok (qs, out) →
      qs = (Symbol.preorder.preorderList cs).map (specAnchor u)
    | [] => by
      intro qs out h
      simp only [get_reference.children_loop] at h
      simp only [Except.ok.injEq, Prod.mk.injEq] at h
      simp [Symbol.preorder.preorderList, ← h.1]
    | c :: cs => by
      intro qs out h
      simp only [get_reference.children_loop] at h
      split at h
      · exact absurd h (by simp)
      · rename_i qs1 out1 heq1
        split at h
        · exact absurd h (by simp)
        · rename_i qs2 out2 heq2
          simp only [Except.ok.injEq, Prod.mk.injEq] at h
          have h1 := get_reference_trace refs u documents c qs1 out1 heq1
          have h2 := trace_list cs qs2 out2 heq2
          simp [Symbol.preorder.preorderList, ← h.1, h1, h2]

/-- The pre-order listing has exactly one entry per node of the tree. -/
theorem preorder_length : (s : Symbol) →
    (Symbol.preorder s).length = Symbol.size s
  | .flat name location => rfl
  | .hier name range selectionRange cs => by
    simp only [Symbol.preorder, Symbol.size, List.length_cons]
    rw [preorder_length_list cs]
    omega
where
  preorder_length_list : (cs : List Symbol) →
      (Symbol.preorder.preorderList cs).length = Symbol.size.sizeList cs
    | [] => rfl
    | c :: cs => by
      simp only [Symbol.preorder.preorderList, Symbol.size.sizeList,
        List.length_append]
      rw [preorder_length c, preorder_length_list cs]

/-- C4: on a hierarchical symbol tree with `N` total nodes, a normally
completing `get_reference` issues exactly `N` reference queries, one per
node, visiting the nodes in depth-first pre-order (parent strictly before
its descendants, children in declared order), each query anchored at that
node's `selectionRange.start` with `includeDeclaration = true` (the anchor
`specAnchor` assigns to a hierarchical node). -/
theorem C4_walker_preorder (refs : Query → Locations) (u : String)
    (documents : List (String × TextDocumentItem)) (s : Symbol)
    (qs : List Query) (out : List String)
    (_hh : s.allHier = true)
    (hok : get_reference refs u documents s = Except.ok (qs, out)) :
    qs = (Symbol.preorder s).map (specAnchor u) ∧
    qs.length = Symbol.size s := by
  have ht := get_reference_trace refs u documents s qs out hok
  exact ⟨ht, by rw [ht, List.length_map, preorder_length]⟩

/-- Witness for C4 on a three-node hierarchical tree. -/
theorem C4_witness :
    (Symbol.hier "a" ⟨⟨0, 0⟩, ⟨9, 0⟩⟩ ⟨⟨0, 6⟩, ⟨0, 7⟩⟩
        [.hier "b" ⟨⟨1, 0⟩, ⟨2, 0⟩⟩ ⟨⟨1, 4⟩, ⟨1, 5⟩⟩ [],
         .hier "c" ⟨⟨3, 0⟩, ⟨4, 0⟩⟩ ⟨⟨3, 4⟩, ⟨3, 5⟩⟩ []]).allHier = true ∧
    get_reference (fun _ => .many []) "file:///t.php" []
        (.hier "a" ⟨⟨0, 0⟩, ⟨9, 0⟩⟩ ⟨⟨0, 6⟩, ⟨0, 7⟩⟩
          [.hier "b" ⟨⟨1, 0⟩, ⟨2, 0⟩⟩ ⟨⟨1, 4⟩, ⟨1, 5⟩⟩ [],
           .hier "c" ⟨⟨3, 0⟩, ⟨4, 0⟩⟩ ⟨⟨3, 4⟩, ⟨3, 5⟩⟩ []]) =
      Except.ok
        ([⟨"file:///t.php", ⟨0, 6⟩, ⟨true⟩⟩,
          ⟨"file:///t.php", ⟨1, 4⟩, ⟨true⟩⟩,
          ⟨"file:///t.php", ⟨3, 4⟩, ⟨true⟩⟩],
         [formatNoRef "file:///t.php" 0 6 "a",
          formatNoRef "file:///t.php" 1 4 "b",
          formatNoRef "file:///t.php" 3 4 "c"]) ∧
    ([⟨"file:///t.php", ⟨0, 6⟩, ⟨true⟩⟩,
      ⟨"file:///t.php", ⟨1, 4⟩, ⟨true⟩⟩,
      (⟨"file:///t.php", ⟨3, 4⟩, ⟨true⟩⟩ : Query)] =
        (Symbol.preorder
          (.hier "a" ⟨⟨0, 0⟩, ⟨9, 0⟩⟩ ⟨⟨0, 6⟩, ⟨0, 7⟩⟩
            [.hier "b" ⟨⟨1, 0⟩, ⟨2, 0⟩⟩ ⟨⟨1, 4⟩, ⟨1, 5⟩⟩ [],
             .hier "c" ⟨⟨3, 0⟩, ⟨4, 0⟩⟩ ⟨⟨3, 4⟩, ⟨3, 5⟩⟩ []])).map
          (specAnchor "file:///t.php") ∧
      [⟨"file:///t.php", ⟨0, 6⟩, ⟨true⟩⟩,
       ⟨"file:///t.php", ⟨1, 4⟩, ⟨true⟩⟩,
       (⟨"file:///t.php", ⟨3, 4⟩, ⟨true⟩⟩ : Query)].length =
        Symbol.size
          (.hier "a" ⟨⟨0, 0⟩, ⟨9, 0⟩⟩ ⟨⟨0, 6⟩, ⟨0, 7⟩⟩
            [.hier "b" ⟨⟨1, 0⟩, ⟨2, 0⟩⟩ ⟨⟨1, 4⟩, ⟨1, 5⟩⟩ [],
             .hier "c" ⟨⟨3, 0⟩, ⟨4, 0⟩⟩ ⟨⟨3, 4⟩, ⟨3, 5⟩⟩ []])) :=
  ⟨rfl, rfl,
    C4_walker_preorder (fun _ => .many []) "file:///t.php" []
      (.hier "a" ⟨⟨0, 0⟩, ⟨9, 0⟩⟩ ⟨⟨0, 6⟩, ⟨0, 7⟩⟩
        [.hier "b" ⟨⟨1, 0⟩, ⟨2, 0⟩⟩ ⟨⟨1, 4⟩, ⟨1, 5⟩⟩ [],
         .hier "c" ⟨⟨3, 0⟩, ⟨4, 0⟩⟩ ⟨⟨3, 4⟩, ⟨3, 5⟩⟩ []])
      [⟨"file:///t.php", ⟨0, 6⟩, ⟨true⟩⟩,
       ⟨"file:///t.php", ⟨1, 4⟩, ⟨true⟩⟩,
       ⟨"file:///t.php", ⟨3, 4⟩, ⟨true⟩⟩]
      [formatNoRef "file:///t.php" 0 6 "a",
       formatNoRef "file:///t.php" 1 4 "b",
       formatNoRef "file:///t.php" 3 4 "c"] rfl rfl⟩

/-- C5: on a flat symbol (`SymbolInformation`), a normally completing
`get_reference` issues exactly one reference query and does not recurse;
the query's line is the symbol's reported `location.range.start.line` plus
the named constant `FLAT_SYMBOL_LINE_OFFSET`, its character is
`location.range.start.character` unchanged, and
`includeDeclaration = true`. -/
theorem C5_flat_single_query (refs : Query → Locations) (u : String)
    (documents : List (String × TextDocumentItem)) (name : String)
    (location : Location) (qs : List Query) (out : List String)
    (hok : get_reference refs u documents (.flat name location) =
      Except.ok (qs, out)) :
    qs = [⟨u, ⟨location.range.start.line + FLAT_SYMBOL_LINE_OFFSET,
      location.range.start.character⟩, ⟨true⟩⟩] ∧
    qs.length = 1 := by
  simp only [get_reference] at hok
  split at hok
  · exact absurd hok (by simp)
  · simp only [Except.ok.injEq, Prod.mk.injEq] at hok
    exact ⟨by rw [← hok.1], by rw [← hok.1]; rfl⟩

/-- Witness for C5 on a concrete flat symbol reported at line 4. -/
theorem C5_witness :
    get_reference (fun _ => .many []) "file:///f.php" []
        (.flat "c" ⟨"file:///f.php", ⟨⟨4, 1⟩, ⟨4, 2⟩⟩⟩) =
      Except.ok ([⟨"file:///f.php", ⟨7, 1⟩, ⟨true⟩⟩],
        [formatNoRef "file:///f.php" 7 1 "c"]) ∧
    ([(⟨"file:///f.php", ⟨7, 1⟩, ⟨true⟩⟩ : Query)] =
        [⟨"file:///f.php", ⟨4 + FLAT_SYMBOL_LINE_OFFSET, 1⟩, ⟨true⟩⟩] ∧
      [(⟨"file:///f.php", ⟨7, 1⟩, ⟨true⟩⟩ : Query)].length = 1) :=
  ⟨rfl,
    C5_flat_single_query (fun _ => .many []) "file:///f.php" [] "c"
      ⟨"file:///f.php", ⟨⟨4, 1⟩, ⟨4, 2⟩⟩⟩
      [⟨"file:///f.php", ⟨7, 1⟩, ⟨true⟩⟩]
      [formatNoRef "file:///f.php" 7 1 "c"] rfl⟩

end Clangd
